import Mathlib

/-!
Shallow embedding of the test-run orchestration core of
`src/ADB_Automation/stb_menu.py` (class `STBTester`).

The original program drives a set-top box over adb: it repeatedly sends key
events and app launches, waits out standby, and reconnects on command failure,
all bounded by a run deadline.  Every side-effecting primitive (an adb
subprocess call, a `time.time()` reading) is modelled by an oracle stream in
an `Env`: the n-th call of a given kind reads the n-th entry of its stream.
A counter state `St` records how many calls of each kind have been made, plus
the `error_already_shown` flag of the class.  Control flow is transcribed
directly from the source; each function also emits a trace of events (`Ev`)
recording the externally observable actions in order, and `sys.exit(n)` is an
`Out.exited n` outcome that propagates (in Python `SystemExit` is not an
`Exception`, so the orchestrators' `except Exception` blocks do not catch it).
Unbounded `while` loops take a fuel argument; running out of fuel is the
distinct outcome `Out.fuelOut`, never identified with any program behaviour.
-/

/-- Observable events emitted by the embedded program, in program order. -/
inductive Ev where
  /-- result of one `f_is_in_standby` poll (a `dumpsys power` call) -/
  | poll (standby : Bool)
  /-- a run-deadline check `time.time() - initial_time >= duration`, with its outcome -/
  | chk (past : Bool)
  /-- a `time.sleep(secs)` call -/
  | sleep (secs : Nat)
  /-- a `sys.exit(code)` call -/
  | sysExit (code : Nat)
  /-- an `adb connect` attempt and its result (`none` = failure/error) -/
  | conn (res : Option String)
  /-- an `adb get-state` readiness check on `dev` and its result -/
  | readyChk (dev : String) (res : Bool)
  /-- a key-event dispatch of `code` to `dev` and whether it succeeded -/
  | key (dev : String) (code : String) (ok : Bool)
  /-- an app-launch dispatch of package `pkg` on `dev` and whether it succeeded -/
  | app (dev : String) (pkg : String) (ok : Bool)
  /-- a failure-notification log line (only failure notifications are traced) -/
  | note (msg : String)
  deriving Repr, DecidableEq

/-- Outcome of a possibly-terminating computation: normal value, process
termination via `sys.exit code`, or fuel exhaustion of the model. -/
inductive Out (α : Type) where
  | ok (a : α)
  | exited (code : Nat)
  | fuelOut
  deriving Repr, DecidableEq

/-- Oracle streams: the n-th call of each primitive kind reads index n. -/
structure Env where
  /-- output of the n-th `dumpsys power` call; `none` models a raised exception -/
  dumpsys : Nat → Option String
  /-- the n-th `time.time()` reading used in a deadline check -/
  clock : Nat → Int
  /-- result of the n-th `adb connect` attempt (`some dev` = connected) -/
  conn : Nat → Option String
  /-- result of the n-th readiness check -/
  ready : Nat → Bool
  /-- success of the n-th dispatched action (key event or app launch) -/
  send : Nat → Bool

/-- Counter state: how many primitive calls of each kind have happened, plus
the `self.error_already_shown` de-duplication flag. -/
structure St where
  polls : Nat
  clocks : Nat
  conns : Nat
  readys : Nat
  sends : Nat
  flag : Bool
  deriving Repr, DecidableEq

/-- Initial state: no calls made, `error_already_shown = False`. -/
def St.init : St := ⟨0, 0, 0, 0, 0, false⟩

/-- Does the first list occur at the start of the second? -/
def startsWithL : List Char → List Char → Bool
  | [], _ => true
  | _ :: _, [] => false
  | p :: ps, c :: cs => p == c && startsWithL ps cs

/-- Does `pat` occur as a contiguous segment of the list? -/
def occursIn (pat : List Char) : List Char → Bool
  | [] => startsWithL pat []
  | c :: cs => startsWithL pat (c :: cs) || occursIn pat cs

/-- Python's substring test `pat in s`. -/
def pyIn (pat s : String) : Bool := occursIn pat.data s.data

/-- Python's `str.strip()`: remove leading and trailing whitespace. -/
def pyStrip (s : String) : String :=
  ⟨((s.data.dropWhile Char.isWhitespace).reverse.dropWhile
      Char.isWhitespace).reverse⟩

/-- Python's `str.replace(" ", "_")`: every space becomes an underscore. -/
def pyReplaceSpace (s : String) : String :=
  ⟨s.data.map fun c => if c = ' ' then '_' else c⟩

/-- Python's `str.lower()` (over the ASCII range used here). -/
def pyLower (s : String) : String := ⟨s.data.map Char.toLower⟩

/-- `f_is_in_standby` (stb_menu.py:358-376): lowercases the `dumpsys power`
output and reports standby iff it contains `mwakefulness=asleep`,
`mwakefulness=dozing` or `display power: state=off`.  A raised exception
(`out = none`) yields `False`. -/
def f_is_in_standby (out : Option String) : Bool :=
  match out with
  | none => false
  | some o =>
    let l := pyLower o
    pyIn "mwakefulness=asleep" l || pyIn "mwakefulness=dozing" l ||
      pyIn "display power: state=off" l

/-- `f_send_key` (stb_menu.py:399-422): dispatch a key event.  On success the
`error_already_shown` flag is cleared and `True` returned.  On failure a
notification is logged only if the flag is unset, the flag is set, a 5 s
backoff sleep runs, and `False` is returned. -/
def f_send_key (env : Env) (st : St) (dev code name : String) :
    List Ev × St × Bool :=
  let ok := env.send st.sends
  let st1 : St := { st with sends := st.sends + 1 }
  if ok then
    ([Ev.key dev code true], { st1 with flag := false }, true)
  else if st.flag then
    ([Ev.key dev code false, Ev.sleep 5], { st1 with flag := true }, false)
  else
    ([Ev.key dev code false, Ev.note ("Error sending " ++ name),
      Ev.sleep 5], { st1 with flag := true }, false)

/-- Helper shared by the key senders that sleep a settle delay only after a
successful `f_send_key` (HOME, RIGHT, LEFT, DOWN, UP, OK, LIVE, volume, mute,
standby, wake-up in the source all have this shape). -/
def sendKeyThenSettle (env : Env) (st : St) (dev code name : String)
    (settle : Nat) : List Ev × St × Bool :=
  let r := f_send_key env st dev code name
  if r.2.2 then (r.1 ++ [Ev.sleep settle], r.2.1, true) else (r.1, r.2.1, false)

/-- `f_send_home_key` (stb_menu.py:428-433): key 3, 10 s settle on success. -/
def f_send_home_key (env : Env) (st : St) (dev : String) : List Ev × St × Bool :=
  sendKeyThenSettle env st dev "3" "KEY_HOME" 10

/-- `f_send_ok_key` (stb_menu.py:463-468): key 23, 5 s settle on success. -/
def f_send_ok_key (env : Env) (st : St) (dev : String) : List Ev × St × Bool :=
  sendKeyThenSettle env st dev "23" "KEY_OK" 5

/-- `f_send_live_key` (stb_menu.py:479-484): key 170, 5 s settle on success. -/
def f_send_live_key (env : Env) (st : St) (dev : String) : List Ev × St × Bool :=
  sendKeyThenSettle env st dev "170" "KEY_LIVE" 5

/-- `f_send_volume_up_key` (stb_menu.py:505-510): key 24, 3 s settle on success. -/
def f_send_volume_up_key (env : Env) (st : St) (dev : String) :
    List Ev × St × Bool :=
  sendKeyThenSettle env st dev "24" "KEY_VOLUME_UP" 3

/-- `f_send_standby_key` (stb_menu.py:530-535): key 26, 10 s settle on success. -/
def f_send_standby_key (env : Env) (st : St) (dev : String) :
    List Ev × St × Bool :=
  sendKeyThenSettle env st dev "26" "KEY_STANDBY" 10

/-- `f_send_wake_up_key` (stb_menu.py:537-542): key 224, 20 s settle on success. -/
def f_send_wake_up_key (env : Env) (st : St) (dev : String) :
    List Ev × St × Bool :=
  sendKeyThenSettle env st dev "224" "KEY_WAKEUP" 20

/-- `f_send_back_key` (stb_menu.py:470-473): sleeps 10 s first, THEN sends
key 4 — the delay precedes the dispatch, unconditionally. -/
def f_send_back_key (env : Env) (st : St) (dev : String) : List Ev × St × Bool :=
  let r := f_send_key env st dev "4" "KEY_BACK"
  (Ev.sleep 10 :: r.1, r.2.1, r.2.2)

/-- `f_send_guide_key` (stb_menu.py:486-489): sleeps 5 s first, THEN sends
key 172. -/
def f_send_guide_key (env : Env) (st : St) (dev : String) : List Ev × St × Bool :=
  let r := f_send_key env st dev "172" "KEY_GUIDE"
  (Ev.sleep 5 :: r.1, r.2.1, r.2.2)

/-- `f_send_channelUP_key` (stb_menu.py:491-494): sleeps 20 s first, THEN
sends key 166. -/
def f_send_channelUP_key (env : Env) (st : St) (dev : String) :
    List Ev × St × Bool :=
  let r := f_send_key env st dev "166" "KEY_CHANNEL_UP"
  (Ev.sleep 20 :: r.1, r.2.1, r.2.2)

/-- `f_send_channelDOWN_key` (stb_menu.py:496-499): sleeps 20 s first, THEN
sends key 167. -/
def f_send_channelDOWN_key (env : Env) (st : St) (dev : String) :
    List Ev × St × Bool :=
  let r := f_send_key env st dev "167" "KEY_CHANNEL_DOWN"
  (Ev.sleep 20 :: r.1, r.2.1, r.2.2)

/-- `f_send_flow_key` (stb_menu.py:548-564): launches the default app via
`am start`.  On success: log, 15 s settle, `True`.  On failure: an error is
logged unconditionally and `False` returned; the flag is never touched. -/
def f_send_flow_key (env : Env) (st : St) (dev : String) : List Ev × St × Bool :=
  let ok := env.send st.sends
  let st1 : St := { st with sends := st.sends + 1 }
  if ok then
    ([Ev.app dev "ar.com.flow.androidtv_stb" true, Ev.sleep 15], st1, true)
  else
    ([Ev.app dev "ar.com.flow.androidtv_stb" false,
      Ev.note "Error opening APP"], st1, false)

/-- `f_open_app` (stb_menu.py:566-589): launches `package` via monkey.  On
success: log, 30 s settle, `True`.  On failure: an error is logged
unconditionally (no de-duplication) and `False` returned; the
`error_already_shown` flag is never read or written. -/
def f_open_app (env : Env) (st : St) (dev pkg desc : String) :
    List Ev × St × Bool :=
  let ok := env.send st.sends
  let st1 : St := { st with sends := st.sends + 1 }
  if ok then
    ([Ev.app dev pkg true, Ev.sleep 30], st1, true)
  else
    ([Ev.app dev pkg false, Ev.note ("Error opening " ++ desc)], st1, false)

/-- `f_connect_device` (stb_menu.py:162-210): one `adb connect` attempt.  All
three outcomes of the original (connected, refused, subprocess error) sleep
10 s before returning; success returns the device id, the others `None`. -/
def f_connect_device (env : Env) (st : St) : List Ev × St × Option String :=
  let res := env.conn st.conns
  ([Ev.conn res, Ev.sleep 10], { st with conns := st.conns + 1 }, res)

/-- `f_is_device_ready` (stb_menu.py:342-356): one `adb get-state` check. -/
def f_is_device_ready (env : Env) (st : St) (dev : String) :
    List Ev × St × Bool :=
  let r := env.ready st.readys
  ([Ev.readyChk dev r], { st with readys := st.readys + 1 }, r)

/-- `f_wait_standby_exit` (stb_menu.py:378-393): `while f_is_in_standby(dev):`
poll; inside the loop check `time.time() - initial_time >= duration` and
`sys.exit(0)` if reached, else `time.sleep(10)` and poll again.  Returns as
soon as a poll does not indicate standby. -/
def f_wait_standby_exit (env : Env) (t0 d : Int) :
    Nat → St → List Ev × Out St
  | 0, _ => ([], Out.fuelOut)
  | fuel+1, st =>
    let sb := f_is_in_standby (env.dumpsys st.polls)
    let st1 : St := { st with polls := st.polls + 1 }
    if sb then
      let past := d ≤ env.clock st1.clocks - t0
      let st2 : St := { st1 with clocks := st1.clocks + 1 }
      if past then
        ([Ev.poll true, Ev.chk true, Ev.sysExit 0], Out.exited 0)
      else
        let r := f_wait_standby_exit env t0 d fuel st2
        (Ev.poll true :: Ev.chk false :: Ev.sleep 10 :: r.1, r.2)
    else
      ([Ev.poll false], Out.ok st1)

/-- `f_reconnect_and_reinitialize` (stb_menu.py:621-651; the trailing
`initialize` of the source name is shortened here): `while True:` check the
run deadline and `sys.exit(0)` if reached; else attempt `f_connect_device`;
on connect + readiness success sleep 30 s and replay the generic
reinitializer (`f_send_home_key`); if the HOME send succeeds, clear the
failure flag and return `(new_device, True)`.  A failed connect/readiness
sleeps 5 s and retries; a failed HOME send retries immediately. -/
def f_reconnect_and_reinit (env : Env) (t0 d : Int) :
    Nat → St → List Ev × Out (String × St)
  | 0, _ => ([], Out.fuelOut)
  | fuel+1, st =>
    let past := d ≤ env.clock st.clocks - t0
    let st1 : St := { st with clocks := st.clocks + 1 }
    if past then
      ([Ev.chk true, Ev.sysExit 0], Out.exited 0)
    else
      let c := f_connect_device env st1
      match c.2.2 with
      | some dev =>
        let rd := f_is_device_ready env c.2.1 dev
        if rd.2.2 then
          let hk := f_send_home_key env rd.2.1 dev
          if hk.2.2 then
            (Ev.chk false :: c.1 ++ rd.1 ++ [Ev.sleep 30] ++ hk.1,
             Out.ok (dev, { hk.2.1 with flag := false }))
          else
            let r := f_reconnect_and_reinit env t0 d fuel hk.2.1
            (Ev.chk false :: c.1 ++ rd.1 ++ [Ev.sleep 30] ++ hk.1 ++ r.1, r.2)
        else
          let r := f_reconnect_and_reinit env t0 d fuel rd.2.1
          (Ev.chk false :: c.1 ++ rd.1 ++ [Ev.sleep 5] ++ r.1, r.2)
      | none =>
        let r := f_reconnect_and_reinit env t0 d fuel c.2.1
        (Ev.chk false :: c.1 ++ [Ev.sleep 5] ++ r.1, r.2)

/-- `f_reconnect_and_reinitialize_project1` (stb_menu.py:653-686; name
shortened as above): same deadline-checked retry loop, but after a successful
HOME send it also replays GUIDE and BACK (their outcomes are ignored) before
clearing the flag and returning, and every non-returning iteration ends with
the dedented `time.sleep(5)` of line 686. -/
def f_reconnect_and_reinit_project1 (env : Env) (t0 d : Int) :
    Nat → St → List Ev × Out (String × St)
  | 0, _ => ([], Out.fuelOut)
  | fuel+1, st =>
    let past := d ≤ env.clock st.clocks - t0
    let st1 : St := { st with clocks := st.clocks + 1 }
    if past then
      ([Ev.chk true, Ev.sysExit 0], Out.exited 0)
    else
      let c := f_connect_device env st1
      match c.2.2 with
      | some dev =>
        let rd := f_is_device_ready env c.2.1 dev
        if rd.2.2 then
          let hk := f_send_home_key env rd.2.1 dev
          if hk.2.2 then
            let g := f_send_guide_key env hk.2.1 dev
            let b := f_send_back_key env g.2.1 dev
            (Ev.chk false :: c.1 ++ rd.1 ++ [Ev.sleep 30] ++ hk.1 ++ g.1 ++ b.1,
             Out.ok (dev, { b.2.1 with flag := false }))
          else
            let r := f_reconnect_and_reinit_project1 env t0 d fuel hk.2.1
            (Ev.chk false :: c.1 ++ rd.1 ++ [Ev.sleep 30] ++ hk.1 ++
               [Ev.sleep 5] ++ r.1, r.2)
        else
          let r := f_reconnect_and_reinit_project1 env t0 d fuel rd.2.1
          (Ev.chk false :: c.1 ++ rd.1 ++ [Ev.sleep 5] ++ r.1, r.2)
      | none =>
        let r := f_reconnect_and_reinit_project1 env t0 d fuel c.2.1
        (Ev.chk false :: c.1 ++ [Ev.sleep 5] ++ r.1, r.2)

/-- Type of a modelled step dispatcher, as passed for `func` in
`f_check_and_send` (every `f_send_*_key` model above has this type). -/
def StepFn : Type := Env → St → String → List Ev × St × Bool

/-- `f_check_and_send` (stb_menu.py:692-712): if `f_is_in_standby(device)`,
block in `f_wait_standby_exit`; then dispatch `func(device)`; on dispatch
failure hand off to `f_reconnect_and_reinitialize` and return its
`(new_device, True)`; on success return `(device, False)`. -/
def f_check_and_send (env : Env) (t0 d : Int) (func : StepFn)
    (dev : String) (st : St) (fuel : Nat) :
    List Ev × Out ((String × Bool) × St) :=
  let sb := f_is_in_standby (env.dumpsys st.polls)
  let st1 : St := { st with polls := st.polls + 1 }
  let w : List Ev × Out St :=
    if sb then
      let r := f_wait_standby_exit env t0 d fuel st1
      (Ev.poll true :: r.1, r.2)
    else ([Ev.poll false], Out.ok st1)
  match w.2 with
  | Out.ok st2 =>
    let k := func env st2 dev
    if k.2.2 then
      (w.1 ++ k.1, Out.ok ((dev, false), k.2.1))
    else
      let r := f_reconnect_and_reinit env t0 d fuel k.2.1
      (w.1 ++ k.1 ++ r.1,
        match r.2 with
        | Out.ok (dev', st') => Out.ok ((dev', true), st')
        | Out.exited c => Out.exited c
        | Out.fuelOut => Out.fuelOut)
  | Out.exited c => (w.1, Out.exited c)
  | Out.fuelOut => (w.1, Out.fuelOut)

/-- One record per completed `while`-iteration (pass) of a test's main loop:
whether the initial sequence ran at the top of the pass, the list of step
indices whose dispatch was attempted, whether the pass ended in a
reconnection, and the value of the `loop` counter after the pass. -/
structure PassInfo where
  initRun : Bool
  attempted : List Nat
  reconnected : Bool
  loopAfter : Nat
  deriving Repr, DecidableEq

/-- The `for func in [...]` body of `f_test_zapping_standard`
(stb_menu.py:1015-1029): run `f_check_and_send` on each step in order,
breaking out as soon as one reports `reconnected = True`.  Also returns the
list of step indices attempted (instrumentation recording the control flow;
`idx` is the index of the first remaining step). -/
def passLoop (env : Env) (t0 d : Int) (fuel : Nat) :
    List StepFn → Nat → String → St →
      List Ev × List Nat × Out ((String × Bool) × St)
  | [], _, dev, st => ([], [], Out.ok ((dev, false), st))
  | f :: rest, idx, dev, st =>
    let c := f_check_and_send env t0 d f dev st fuel
    match c.2 with
    | Out.ok ((dev', true), st') => (c.1, [idx], Out.ok ((dev', true), st'))
    | Out.ok ((dev', false), st') =>
      let r := passLoop env t0 d fuel rest (idx+1) dev' st'
      (c.1 ++ r.1, idx :: r.2.1, r.2.2)
    | Out.exited cd => (c.1, [idx], Out.exited cd)
    | Out.fuelOut => (c.1, [idx], Out.fuelOut)

/-- The initial sequence of `f_test_zapping_standard` (stb_menu.py:1005-1013):
HOME, sleep 5, LIVE, sleep 5, launch the default app; failures are ignored. -/
def zappingInitSeq (env : Env) (st : St) (dev : String) : List Ev × St :=
  let h := f_send_home_key env st dev
  let l := f_send_live_key env h.2.1 dev
  let f := f_send_flow_key env l.2.1 dev
  (h.1 ++ [Ev.sleep 5] ++ l.1 ++ [Ev.sleep 5] ++ f.1, f.2.1)

/-- The main `while time.time() - initial_time < duration:` loop of
`f_test_zapping_standard` (stb_menu.py:1003-1033), parameterized by the step
list: re-run the initial sequence when `need_initial_sequence`, run one pass;
if the pass reconnected, set `loop = 0` and `need_initial_sequence = True`;
otherwise `loop += 1`.  Returns the trace, one `PassInfo` per completed pass,
and the final outcome (`Out.ok` = the deadline ended the run normally). -/
def zappingMain (env : Env) (t0 d : Int) (steps : List StepFn) :
    Nat → String → St → Nat → Bool → List Ev × List PassInfo × Out St
  | 0, _, _, _, _ => ([], [], Out.fuelOut)
  | fuel+1, dev, st, loop, needInit =>
    let past := d ≤ env.clock st.clocks - t0
    let st0 : St := { st with clocks := st.clocks + 1 }
    if past then ([Ev.chk true], [], Out.ok st0)
    else
      let ini : List Ev × St :=
        if needInit then zappingInitSeq env st0 dev else ([], st0)
      let p := passLoop env t0 d fuel steps 0 dev ini.2
      match p.2.2 with
      | Out.ok ((dev', true), st') =>
        let m := zappingMain env t0 d steps fuel dev' st' 0 true
        (Ev.chk false :: ini.1 ++ p.1 ++ m.1,
         ⟨needInit, p.2.1, true, 0⟩ :: m.2.1, m.2.2)
      | Out.ok ((dev', false), st') =>
        let m := zappingMain env t0 d steps fuel dev' st' (loop+1) false
        (Ev.chk false :: ini.1 ++ p.1 ++ m.1,
         ⟨needInit, p.2.1, false, loop+1⟩ :: m.2.1, m.2.2)
      | Out.exited c => (Ev.chk false :: ini.1 ++ p.1, [], Out.exited c)
      | Out.fuelOut => (Ev.chk false :: ini.1 ++ p.1, [], Out.fuelOut)

/-- The concrete repeating step list of `f_test_zapping_standard`
(stb_menu.py:1016-1020). -/
def zappingSteps : List StepFn :=
  [f_send_channelUP_key, f_send_channelUP_key, f_send_channelDOWN_key,
   f_send_channelUP_key, f_send_channelDOWN_key]

/-- `f_test_zapping_standard`'s test loop (stb_menu.py:997-1033): starts with
`loop = 0` and `need_initial_sequence = True` on its fixed step list. -/
def f_test_zapping_standard_run (env : Env) (t0 d : Int) (dev : String)
    (st : St) (fuel : Nat) : List Ev × List PassInfo × Out St :=
  zappingMain env t0 d zappingSteps fuel dev st 0 true

/-- The main loop of `f_test_standby_wakeup` (stb_menu.py:1651-1678): each
pass sends STANDBY then WAKEUP; if either fails, run the generic
reconnection, set `loop = 0`, `need_initial_sequence = True` and `continue`;
after a clean pass `loop += 1`.  Returns one `(reconnected, loopAfter)`
summary per completed pass. -/
def wakeupMain (env : Env) (t0 d : Int) :
    Nat → String → St → Nat → Bool → List Ev × List (Bool × Nat) × Out St
  | 0, _, _, _, _ => ([], [], Out.fuelOut)
  | fuel+1, dev, st, loop, _needInit =>
    let past := d ≤ env.clock st.clocks - t0
    let st0 : St := { st with clocks := st.clocks + 1 }
    if past then ([Ev.chk true], [], Out.ok st0)
    else
      let sk := f_send_standby_key env st0 dev
      if sk.2.2 then
        let wk := f_send_wake_up_key env sk.2.1 dev
        if wk.2.2 then
          let m := wakeupMain env t0 d fuel dev wk.2.1 (loop+1) false
          (Ev.chk false :: sk.1 ++ wk.1 ++ m.1, (false, loop+1) :: m.2.1, m.2.2)
        else
          let r := f_reconnect_and_reinit env t0 d fuel wk.2.1
          match r.2 with
          | Out.ok (dev', st') =>
            let m := wakeupMain env t0 d fuel dev' st' 0 true
            (Ev.chk false :: sk.1 ++ wk.1 ++ r.1 ++ m.1,
             (true, 0) :: m.2.1, m.2.2)
          | Out.exited c =>
            (Ev.chk false :: sk.1 ++ wk.1 ++ r.1, [], Out.exited c)
          | Out.fuelOut =>
            (Ev.chk false :: sk.1 ++ wk.1 ++ r.1, [], Out.fuelOut)
      else
        let r := f_reconnect_and_reinit env t0 d fuel sk.2.1
        match r.2 with
        | Out.ok (dev', st') =>
          let m := wakeupMain env t0 d fuel dev' st' 0 true
          (Ev.chk false :: sk.1 ++ r.1 ++ m.1, (true, 0) :: m.2.1, m.2.2)
        | Out.exited c => (Ev.chk false :: sk.1 ++ r.1, [], Out.exited c)
        | Out.fuelOut => (Ev.chk false :: sk.1 ++ r.1, [], Out.fuelOut)

/-- Duration selection of `f_get_connection_info` (stb_menu.py:736-805).
`customParsed` is the result of Python's `int()` on the stripped custom
duration string (`none` = `ValueError`, also covering the emptiness check).
Every `raise ValueError` path is caught by the enclosing handler, which
returns `None` to the menu (the program does not crash). -/
def f_get_connection_info (ip choice : String) (customParsed : Option Int) :
    Option Int :=
  if pyStrip ip = "" then none
  else
    let c := pyStrip choice
    if c = "" then none
    else if c = "1" then some (12 * 60 * 60)
    else if c = "2" then some (24 * 60 * 60)
    else if c = "3" then
      match customParsed with
      | none => none
      | some dur =>
        if dur ≤ 0 then none
        else if 432000 < dur then none
        else some dur
    else none

/-- `f_setup_logging` (stb_menu.py:42-85): the entered label is stripped and
its spaces replaced by underscores; an empty result is replaced by the
default `log_<test name lowercased>`; a result longer than 50 characters is
rejected (the function returns `False` and the operator goes back to the
menu).  `some name` models the accepted `True` path with the chosen log name
(the timestamp suffix appended in the source is time-dependent and outside
the model). -/
def f_setup_logging (test_name rawLabel : String) : Option String :=
  let ln := pyReplaceSpace (pyStrip rawLabel)
  let ln := if ln = "" then "log_" ++ pyLower test_name else ln
  if 50 < ln.length then none else some ln

/-- Does a trace contain a failure-notification log line? -/
def notified (tr : List Ev) : Bool :=
  tr.any fun e => match e with | Ev.note _ => true | _ => false

/-- Does a trace contain a deadline check that found the deadline exceeded? -/
def hasChkTrue (tr : List Ev) : Bool :=
  tr.any fun e => match e with | Ev.chk true => true | _ => false

/-- Does a trace contain a connection attempt? -/
def hasConn (tr : List Ev) : Bool :=
  tr.any fun e => match e with | Ev.conn _ => true | _ => false

/-- Every connection attempt in the trace is immediately preceded by a
deadline check that found the deadline NOT yet exceeded. -/
def connsChecked : List Ev → Bool
  | [] => true
  | Ev.chk false :: Ev.conn _ :: rest => connsChecked rest
  | Ev.conn _ :: _ => false
  | _ :: rest => connsChecked rest

/-- A trace free of deadline checks and connection attempts (used to step
`connsChecked` and `hasChkTrue` over dispatcher segments). -/
def chkConnFree (tr : List Ev) : Bool :=
  tr.all fun e => match e with
    | Ev.conn _ => false
    | Ev.chk _ => false
    | _ => true

/-- Expected trace of `k` standby-reporting iterations of
`f_wait_standby_exit`: each one polls, passes the deadline check, and sleeps
10 s before the next poll. -/
def waitPrefix : Nat → List Ev
  | 0 => []
  | k+1 => Ev.poll true :: Ev.chk false :: Ev.sleep 10 :: waitPrefix k

/-- `idxFrom s k` = the `k` consecutive indices starting at `s`. -/
def idxFrom : Nat → Nat → List Nat
  | _, 0 => []
  | s, k+1 => s :: idxFrom (s+1) k

/-- Checker for the restart discipline of the main test loop over a list of
pass records, given the step-list length `n` and whether the initial sequence
is due before the next pass: every pass runs the initial sequence exactly
when it is due, attempts a contiguous block of step indices starting at 0
(never resuming mid-list), attempts the whole list unless it reconnected,
and a reconnected pass makes the initial sequence due again. -/
def restartOk (n : Nat) : Bool → List PassInfo → Bool
  | _, [] => true
  | needInit, p :: rest =>
    (p.initRun == needInit) &&
    (p.attempted == idxFrom 0 p.attempted.length) &&
    (if p.reconnected then Nat.ble p.attempted.length n
     else p.attempted.length == n) &&
    restartOk n p.reconnected rest

/-- Checker for the `loop` counter discipline over per-pass
`(reconnected, loopAfter)` summaries, starting from counter value `c`: a
pass that reconnected leaves the counter at 0, a clean pass leaves it at the
previous value plus 1, and no other values occur. -/
def loopValuesOk : Nat → List (Bool × Nat) → Bool
  | _, [] => true
  | c, pr :: rest =>
    (pr.2 == (if pr.1 then 0 else c + 1)) && loopValuesOk pr.2 rest

/-- Witness environment: every primitive fails (no device, nothing ready,
every dispatch fails, every poll raises), clock frozen at 0. -/
def envFail : Env :=
  ⟨fun _ => none, fun _ => 0, fun _ => none, fun _ => false, fun _ => false⟩

/-- Witness environment: first poll reports standby (`mwakefulness=asleep`),
later polls raise; clock frozen at 0; everything else fails. -/
def envStandbyOnce : Env :=
  ⟨fun n => if n = 0 then some "mWakefulness=Asleep" else none,
   fun _ => 0, fun _ => none, fun _ => false, fun _ => false⟩

/-- Witness environment: every poll reports standby; clock frozen at 0. -/
def envStandbyForever : Env :=
  ⟨fun _ => some "mWakefulness=Asleep", fun _ => 0, fun _ => none,
   fun _ => false, fun _ => false⟩

/-- Witness environment: connecting always yields device `"10.0.0.7:5555"`,
which is ready; every dispatch succeeds; clock frozen at 0; polls raise. -/
def envHealthy : Env :=
  ⟨fun _ => none, fun _ => 0, fun _ => some "10.0.0.7:5555",
   fun _ => true, fun _ => true⟩

/-- `St.init` with the `error_already_shown` flag set. -/
def stFlagSet : St := ⟨0, 0, 0, 0, 0, true⟩

/-- C5: custom duration selection (menu choice 3) accepts exactly the
integers `d` with `0 < d ≤ 432000`, returning `d`; a non-numeric custom
input (parse failure) and every out-of-range integer are rejected with
`None`, returning the operator to the menu instead of crashing. -/
theorem C5_custom_duration (ip : String) (h : pyStrip ip ≠ "") :
    (∀ d : Int, f_get_connection_info ip "3" (some d) =
      if 0 < d ∧ d ≤ 432000 then some d else none)
    ∧ f_get_connection_info ip "3" none = none := by
  have e0 : pyStrip "3" = "3" := rfl
  have n1 := eq_false (show ("3" : String) ≠ "" from by decide)
  have n2 := eq_false (show ("3" : String) ≠ "1" from by decide)
  have n3 := eq_false (show ("3" : String) ≠ "2" from by decide)
  have n4 := eq_true (show ("3" : String) = "3" from rfl)
  constructor
  · intro d
    simp only [f_get_connection_info, e0, n1, n2, n3, n4, if_false, if_true]
    rw [if_neg h]
    split_ifs <;> first | rfl | (exfalso; omega)
  · simp only [f_get_connection_info, e0, n1, n2, n3, n4, if_false, if_true]
    rw [if_neg h]

/-- C5 witness: with a non-empty address, 500 s is accepted verbatim,
500000 s (> 432000) is rejected, -5 is rejected, and a parse failure is
rejected. -/
theorem C5_witness :
    f_get_connection_info "192.168.1.50" "3" (some 500) = some 500 ∧
    f_get_connection_info "192.168.1.50" "3" (some 500000) = none ∧
    f_get_connection_info "192.168.1.50" "3" (some (-5)) = none ∧
    f_get_connection_info "192.168.1.50" "3" none = none := by
  have h : pyStrip "192.168.1.50" ≠ "" := by decide
  refine ⟨?_, ?_, ?_, (C5_custom_duration "192.168.1.50" h).2⟩
  · have h1 := (C5_custom_duration "192.168.1.50" h).1 500
    rw [if_pos (by norm_num)] at h1
    exact h1
  · have h1 := (C5_custom_duration "192.168.1.50" h).1 500000
    rw [if_neg (by norm_num)] at h1
    exact h1
  · have h1 := (C5_custom_duration "192.168.1.50" h).1 (-5)
    rw [if_neg (by norm_num)] at h1
    exact h1

/-- C7 counterexample: the claim states that for EVERY dispatched action,
app launches included, a failure notification is emitted only if the
already-reported flag is unset.  But `f_open_app` with the flag already set
and a failing launch still emits a failure notification, and it leaves the
flag set rather than managing it: the de-duplication lives only in
`f_send_key`. -/
theorem C7_counterexample :
    notified (f_open_app envFail stFlagSet "10.0.0.7:5555" "com.netflix.ninja"
      "Netflix").1 = true ∧
    (f_open_app envFail stFlagSet "10.0.0.7:5555" "com.netflix.ninja"
      "Netflix").2.1.flag = true := by
  constructor <;> rfl

/-- C7 amended: key presses through `f_send_key` de-duplicate failure
notifications (a notification is emitted exactly when the dispatch fails and
the flag is unset; the flag ends set exactly when the dispatch failed), while
the app launchers (`f_open_app`, `f_send_flow_key`) emit a notification on
EVERY failure and never read or write the flag. -/
theorem C7_failure_notification_dedup (env : Env) (st : St)
    (dev code name pkg desc : String) :
    (notified (f_send_key env st dev code name).1 =
      (!env.send st.sends && !st.flag))
    ∧ ((f_send_key env st dev code name).2.1.flag = !env.send st.sends)
    ∧ (notified (f_open_app env st dev pkg desc).1 = !env.send st.sends)
    ∧ ((f_open_app env st dev pkg desc).2.1.flag = st.flag)
    ∧ (notified (f_send_flow_key env st dev).1 = !env.send st.sends)
    ∧ ((f_send_flow_key env st dev).2.1.flag = st.flag) := by
  cases hs : env.send st.sends <;> cases hf : st.flag <;>
    simp [f_send_key, f_open_app, f_send_flow_key, notified, hs, hf]

/-- C8 counterexample: the claim states that the channel-up dispatcher pauses
only after a successful send and never before sending; but its very first
event is the 20 s sleep, emitted before the key dispatch and even though the
dispatch then fails. -/
theorem C8_counterexample :
    (f_send_channelUP_key envFail St.init "10.0.0.7:5555").1.head? =
      some (Ev.sleep 20) ∧
    (f_send_channelUP_key envFail St.init "10.0.0.7:5555").2.2 = false := by
  constructor <;> rfl

/-- C8 amended: the HOME/OK/LIVE/volume/standby/wake-up dispatchers and the
app launcher apply their settle delay after the action and only on success
(on failure only `f_send_key`'s fixed 5 s backoff runs), whereas the
channel-up, channel-down, back and guide dispatchers sleep their delay
BEFORE dispatching, unconditionally. -/
theorem C8_settle_delay_placement (env : Env) (st : St) (dev pkg desc : String) :
    ((f_send_channelUP_key env st dev).1 =
      Ev.sleep 20 :: (f_send_key env st dev "166" "KEY_CHANNEL_UP").1)
    ∧ ((f_send_channelDOWN_key env st dev).1 =
        Ev.sleep 20 :: (f_send_key env st dev "167" "KEY_CHANNEL_DOWN").1)
    ∧ ((f_send_back_key env st dev).1 =
        Ev.sleep 10 :: (f_send_key env st dev "4" "KEY_BACK").1)
    ∧ ((f_send_guide_key env st dev).1 =
        Ev.sleep 5 :: (f_send_key env st dev "172" "KEY_GUIDE").1)
    ∧ ((f_send_home_key env st dev).1 =
        if env.send st.sends then [Ev.key dev "3" true, Ev.sleep 10]
        else (f_send_key env st dev "3" "KEY_HOME").1)
    ∧ ((f_send_ok_key env st dev).1 =
        if env.send st.sends then [Ev.key dev "23" true, Ev.sleep 5]
        else (f_send_key env st dev "23" "KEY_OK").1)
    ∧ ((f_send_volume_up_key env st dev).1 =
        if env.send st.sends then [Ev.key dev "24" true, Ev.sleep 3]
        else (f_send_key env st dev "24" "KEY_VOLUME_UP").1)
    ∧ ((f_open_app env st dev pkg desc).1 =
        if env.send st.sends then [Ev.app dev pkg true, Ev.sleep 30]
        else [Ev.app dev pkg false, Ev.note ("Error opening " ++ desc)]) := by
  cases hs : env.send st.sends <;> cases hf : st.flag <;>
    simp [f_send_channelUP_key, f_send_channelDOWN_key, f_send_back_key,
      f_send_guide_key, f_send_home_key, f_send_ok_key, f_send_volume_up_key,
      f_open_app, sendKeyThenSettle, f_send_key, hs, hf]

/-- C9 counterexample: the claim states an empty log label is rejected as an
input-validation error; but `f_setup_logging` replaces an empty label with
the default `log_<test name lowercased>` and ACCEPTS it. -/
theorem C9_counterexample :
    f_setup_logging "ZAPPING_STANDARD" "" = some "log_zapping_standard" := by
  decide

/-- C9 amended: the label is stripped and its spaces become underscores; if
the processed label is empty it is replaced by the default
`log_<test name lowercased>` and accepted (subject to the same length
check); a processed label longer than 50 characters is rejected (setup
returns failure and the operator returns to the menu); a processed label of
1 to 50 characters is accepted. -/
theorem C9_label_validation (test raw : String) :
    (pyReplaceSpace (pyStrip raw) = "" →
      f_setup_logging test raw =
        if 50 < ("log_" ++ pyLower test).length then none
        else some ("log_" ++ pyLower test))
    ∧ (pyReplaceSpace (pyStrip raw) ≠ "" →
        f_setup_logging test raw =
          if 50 < (pyReplaceSpace (pyStrip raw)).length then none
          else some (pyReplaceSpace (pyStrip raw))) := by
  constructor <;> intro h <;> simp [f_setup_logging, h]

/-- C9 witness: a 55-character label is rejected, a 10-character label is
accepted unchanged. -/
theorem C9_witness :
    f_setup_logging "ZAPPING_STANDARD"
      "aaaaaaaaaaaaaaaaaaaaaaaaaaaaaaaaaaaaaaaaaaaaaaaaaaaaaaa" = none ∧
    f_setup_logging "ZAPPING_STANDARD" "soak_run_A" = some "soak_run_A" := by
  constructor
  · have h := (C9_label_validation "ZAPPING_STANDARD"
      "aaaaaaaaaaaaaaaaaaaaaaaaaaaaaaaaaaaaaaaaaaaaaaaaaaaaaaa").2 (by decide)
    rw [if_pos (by decide)] at h
    exact h
  · have h := (C9_label_validation "ZAPPING_STANDARD" "soak_run_A").2 (by decide)
    rw [if_neg (by decide)] at h
    rw [h]
    decide

/-- Structural lemma: a normal return of `f_wait_standby_exit` polled `k`
times seeing standby (each such poll followed by a passed deadline check and
a 10 s sleep) and returned immediately after the first poll that did not
indicate standby. -/
theorem wait_ok_shape (env : Env) (t0 d : Int) : ∀ fuel st st',
    (f_wait_standby_exit env t0 d fuel st).2 = Out.ok st' →
    ∃ k, (f_wait_standby_exit env t0 d fuel st).1
        = waitPrefix k ++ [Ev.poll false]
      ∧ f_is_in_standby (env.dumpsys (st.polls + k)) = false
      ∧ (∀ j, j < k → f_is_in_standby (env.dumpsys (st.polls + j)) = true) := by
  intro fuel
  induction fuel with
  | zero =>
    intro st st' hok
    simp [f_wait_standby_exit] at hok
  | succ n ih =>
    intro st st' hok
    cases hsb : f_is_in_standby (env.dumpsys st.polls) with
    | false =>
      refine ⟨0, ?_, ?_, ?_⟩
      · simp [f_wait_standby_exit, hsb, waitPrefix]
      · simpa using hsb
      · intro j hj; omega
    | true =>
      by_cases hp : d ≤ env.clock st.clocks - t0
      · simp [f_wait_standby_exit, hsb, hp] at hok
      · simp only [f_wait_standby_exit, hsb, hp, if_true, if_false,
          ite_true, ite_false] at hok ⊢
        obtain ⟨k, h1, h2, h3⟩ := ih _ st' hok
        refine ⟨k + 1, ?_, ?_, ?_⟩
        · simp only [waitPrefix, List.cons_append]
          rw [h1]
        · have e : st.polls + (k + 1) = st.polls + 1 + k := by omega
          rw [e]
          simpa using h2
        · intro j hj
          cases j with
          | zero => simpa using hsb
          | succ j' =>
            have e : st.polls + (j' + 1) = st.polls + 1 + j' := by omega
            rw [e]
            have := h3 j' (by omega)
            simpa using this

/-- Structural lemma: if `f_wait_standby_exit` terminated the process, the
exit code was 0, every poll before the last reported standby with the
deadline not yet reached, and the final poll reported standby with the
deadline reached. -/
theorem wait_exit_shape (env : Env) (t0 d : Int) : ∀ fuel st c,
    (f_wait_standby_exit env t0 d fuel st).2 = Out.exited c →
    c = 0 ∧ ∃ k, (f_wait_standby_exit env t0 d fuel st).1
        = waitPrefix k ++ [Ev.poll true, Ev.chk true, Ev.sysExit 0]
      ∧ f_is_in_standby (env.dumpsys (st.polls + k)) = true
      ∧ d ≤ env.clock (st.clocks + k) - t0 := by
  intro fuel
  induction fuel with
  | zero =>
    intro st c hex
    simp [f_wait_standby_exit] at hex
  | succ n ih =>
    intro st c hex
    cases hsb : f_is_in_standby (env.dumpsys st.polls) with
    | false => simp [f_wait_standby_exit, hsb] at hex
    | true =>
      by_cases hp : d ≤ env.clock st.clocks - t0
      · simp only [f_wait_standby_exit, hsb, hp, if_true, if_false,
          ite_true, ite_false] at hex ⊢
        refine ⟨by exact (Out.exited.inj hex).symm, 0, ?_, ?_, ?_⟩
        · simp [waitPrefix]
        · simpa using hsb
        · simpa using hp
      · simp only [f_wait_standby_exit, hsb, hp, if_true, if_false,
          ite_true, ite_false] at hex ⊢
        obtain ⟨hc, k, h1, h2, h3⟩ := ih _ c hex
        refine ⟨hc, k + 1, ?_, ?_, ?_⟩
        · simp only [waitPrefix, List.cons_append]
          rw [h1]
        · have e : st.polls + (k + 1) = st.polls + 1 + k := by omega
          rw [e]
          simpa using h2
        · have e : st.clocks + (k + 1) = st.clocks + 1 + k := by omega
          rw [e]
          simpa using h3

/-- Structural lemma: if polls 0..k all report standby, the deadline checks
before the k-th pass, and the deadline is reached at the k-th check, then
`f_wait_standby_exit` terminates the process with exit code 0 (given fuel). -/
theorem wait_deadline_exits (env : Env) (t0 d : Int) : ∀ k fuel st,
    k < fuel →
    (∀ j, j ≤ k → f_is_in_standby (env.dumpsys (st.polls + j)) = true) →
    (∀ j, j < k → env.clock (st.clocks + j) - t0 < d) →
    d ≤ env.clock (st.clocks + k) - t0 →
    (f_wait_standby_exit env t0 d fuel st).2 = Out.exited 0 := by
  intro k
  induction k with
  | zero =>
    intro fuel st hf hsb _ hd
    cases fuel with
    | zero => omega
    | succ n =>
      have h0 : f_is_in_standby (env.dumpsys st.polls) = true := by
        simpa using hsb 0 (by omega)
      have hd0 : d ≤ env.clock st.clocks - t0 := by simpa using hd
      simp [f_wait_standby_exit, h0, hd0]
  | succ k ih =>
    intro fuel st hf hsb hcl hd
    cases fuel with
    | zero => omega
    | succ n =>
      have h0 : f_is_in_standby (env.dumpsys st.polls) = true := by
        simpa using hsb 0 (by omega)
      have hc0 : ¬ d ≤ env.clock st.clocks - t0 := by
        have := hcl 0 (by omega)
        simp only [Nat.add_zero] at this
        omega
      simp only [f_wait_standby_exit, h0, hc0, if_true, if_false,
        ite_true, ite_false]
      apply ih n _ (by omega)
      · intro j hj
        have := hsb (j + 1) (by omega)
        have e : st.polls + (j + 1) = st.polls + 1 + j := by omega
        rw [e] at this
        simpa using this
      · intro j hj
        have := hcl (j + 1) (by omega)
        have e : st.clocks + (j + 1) = st.clocks + 1 + j := by omega
        rw [e] at this
        simpa using this
      · have := hd
        have e : st.clocks + (k + 1) = st.clocks + 1 + k := by omega
        rw [e] at this
        simpa using this

/-- C2: `f_wait_standby_exit` (i) returns only after a poll reports the
device out of standby (not `mwakefulness=asleep`, not `mwakefulness=dozing`,
not `display power: state=off`), every earlier poll having reported standby,
with exactly one 10 s sleep between consecutive polls (the trace is
`waitPrefix k ++ [poll false]`); and (ii) if while still polling (standby
still reported) the run deadline `now - start >= duration` is reached, it
terminates the process (exit code 0) instead of returning. -/
theorem C2_standby_wait (env : Env) (t0 d : Int) (fuel : Nat) (st : St) :
    (∀ st', (f_wait_standby_exit env t0 d fuel st).2 = Out.ok st' →
      ∃ k, (f_wait_standby_exit env t0 d fuel st).1
          = waitPrefix k ++ [Ev.poll false]
        ∧ f_is_in_standby (env.dumpsys (st.polls + k)) = false
        ∧ (∀ j, j < k → f_is_in_standby (env.dumpsys (st.polls + j)) = true))
    ∧ (∀ k, k < fuel →
        (∀ j, j ≤ k → f_is_in_standby (env.dumpsys (st.polls + j)) = true) →
        (∀ j, j < k → env.clock (st.clocks + j) - t0 < d) →
        d ≤ env.clock (st.clocks + k) - t0 →
        (f_wait_standby_exit env t0 d fuel st).2 = Out.exited 0) :=
  ⟨fun st' h => wait_ok_shape env t0 d fuel st st' h,
   fun k hf hsb hcl hd => wait_deadline_exits env t0 d k fuel st hf hsb hcl hd⟩

/-- C2 witness: with a first poll reporting `mWakefulness=Asleep` and a
second poll not reporting standby, `f_wait_standby_exit` returns after the
second poll, its trace being one standby poll, one passed deadline check and
one 10 s sleep followed by the non-standby poll. -/
theorem C2_witness :
    ∃ k, (f_wait_standby_exit envStandbyOnce 0 100 5 St.init).1
        = waitPrefix k ++ [Ev.poll false]
      ∧ f_is_in_standby (envStandbyOnce.dumpsys (St.init.polls + k)) = false
      ∧ (∀ j, j < k →
          f_is_in_standby (envStandbyOnce.dumpsys (St.init.polls + j)) = true) :=
  (C2_standby_wait envStandbyOnce 0 100 5 St.init).1 ⟨2, 1, 0, 0, 0, false⟩
    (by decide)

/-- A single neutral (non-check, non-connect) event steps `connsChecked`. -/
theorem connsChecked_cons_neutral (e : Ev) (l : List Ev)
    (h : chkConnFree [e] = true) : connsChecked (e :: l) = connsChecked l := by
  cases e <;> simp [chkConnFree] at h <;> simp [connsChecked]

/-- `connsChecked` ignores a neutral prefix. -/
theorem connsChecked_append_neutral (l1 l2 : List Ev)
    (h : chkConnFree l1 = true) : connsChecked (l1 ++ l2) = connsChecked l2 := by
  induction l1 with
  | nil => simp
  | cons e es ihe =>
    simp only [chkConnFree, List.all_cons, Bool.and_eq_true] at h
    rw [List.cons_append, connsChecked_cons_neutral e _ (by simp [chkConnFree, h.1])]
    exact ihe (by simp [chkConnFree, h.2])

/-- A neutral trace satisfies `connsChecked`. -/
theorem connsChecked_of_neutral (l : List Ev) (h : chkConnFree l = true) :
    connsChecked l = true := by
  have := connsChecked_append_neutral l [] h
  simpa using this

/-- A neutral trace contains no deadline-exceeded check. -/
theorem hasChkTrue_of_neutral (l : List Ev) (h : chkConnFree l = true) :
    hasChkTrue l = false := by
  induction l with
  | nil => rfl
  | cons e es ihe =>
    simp only [chkConnFree, List.all_cons, Bool.and_eq_true] at h
    have hrest := ihe (by simp [chkConnFree, h.2])
    simp only [hasChkTrue] at hrest
    have he := h.1
    cases e <;> simp [hasChkTrue, hrest] at he ⊢

/-- The trace of one `f_send_key` call is neutral. -/
theorem f_send_key_neutral (env : Env) (st : St) (dev code name : String) :
    chkConnFree (f_send_key env st dev code name).1 = true := by
  cases hs : env.send st.sends <;> cases hf : st.flag <;>
    simp [f_send_key, chkConnFree, hs, hf]

/-- The trace of one `f_send_home_key` call is neutral. -/
theorem f_send_home_key_neutral (env : Env) (st : St) (dev : String) :
    chkConnFree (f_send_home_key env st dev).1 = true := by
  have hk := f_send_key_neutral env st dev "3" "KEY_HOME"
  unfold f_send_home_key sendKeyThenSettle
  by_cases h : (f_send_key env st dev "3" "KEY_HOME").2.2 = true <;>
    simp [h, chkConnFree, List.all_append] <;>
    simp [chkConnFree] at hk <;> exact hk

/-- The trace of one `f_send_guide_key` call is neutral. -/
theorem f_send_guide_key_neutral (env : Env) (st : St) (dev : String) :
    chkConnFree (f_send_guide_key env st dev).1 = true := by
  have hk := f_send_key_neutral env st dev "172" "KEY_GUIDE"
  unfold f_send_guide_key
  simp only [chkConnFree, List.all_cons] at hk ⊢
  simpa using hk

/-- The trace of one `f_send_back_key` call is neutral. -/
theorem f_send_back_key_neutral (env : Env) (st : St) (dev : String) :
    chkConnFree (f_send_back_key env st dev).1 = true := by
  have hk := f_send_key_neutral env st dev "4" "KEY_BACK"
  unfold f_send_back_key
  simp only [chkConnFree, List.all_cons] at hk ⊢
  simpa using hk

/-- `connsChecked` drops a neutral prefix (curried form usable by `simp`). -/
theorem connsChecked_append_of_neutral (l1 : List Ev)
    (h : chkConnFree l1 = true) (l2 : List Ev) :
    connsChecked (l1 ++ l2) = connsChecked l2 :=
  connsChecked_append_neutral l1 l2 h

/-- `hasChkTrue` distributes over append. -/
theorem hasChkTrue_append (l1 l2 : List Ev) :
    hasChkTrue (l1 ++ l2) = (hasChkTrue l1 || hasChkTrue l2) := by
  simp [hasChkTrue, List.any_append]

/-- A successful `f_send_home_key` dispatched key 3 and then slept 10 s. -/
theorem f_send_home_key_ok_shape (env : Env) (st : St) (dev : String)
    (h : (f_send_home_key env st dev).2.2 = true) :
    (f_send_home_key env st dev).1 = [Ev.key dev "3" true, Ev.sleep 10] := by
  unfold f_send_home_key sendKeyThenSettle f_send_key at h ⊢
  cases hs : env.send st.sends <;> cases hf : st.flag <;>
    simp [hs, hf] at h ⊢

/-- Structural lemma for `f_reconnect_and_reinit`: (i) every connection
attempt is immediately preceded by a deadline check that passed; (ii) a
process termination has exit code 0, comes right after the first deadline
check that found the deadline exceeded, and nothing follows the `sys.exit`;
(iii) a recovered session never saw an exceeded deadline check, and its trace
shows the readiness check succeed on the returned device before the 30 s
settle and the HOME replay. -/
theorem reconnect_spec (env : Env) (t0 d : Int) : ∀ fuel st,
    connsChecked (f_reconnect_and_reinit env t0 d fuel st).1 = true
    ∧ (∀ c, (f_reconnect_and_reinit env t0 d fuel st).2 = Out.exited c →
        c = 0 ∧ ∃ pre, (f_reconnect_and_reinit env t0 d fuel st).1
            = pre ++ [Ev.chk true, Ev.sysExit 0]
          ∧ hasChkTrue pre = false)
    ∧ (∀ dev st', (f_reconnect_and_reinit env t0 d fuel st).2
          = Out.ok (dev, st') →
        hasChkTrue (f_reconnect_and_reinit env t0 d fuel st).1 = false
        ∧ ∃ pre rest, (f_reconnect_and_reinit env t0 d fuel st).1
            = pre ++ Ev.readyChk dev true :: Ev.sleep 30
                :: Ev.key dev "3" true :: rest) := by
  intro fuel
  induction fuel with
  | zero =>
    intro st
    refine ⟨rfl, ?_, ?_⟩
    · intro c hex
      simp [f_reconnect_and_reinit] at hex
    · intro dev st' hok
      simp [f_reconnect_and_reinit] at hok
  | succ n ih =>
    intro st
    by_cases hp : d ≤ env.clock st.clocks - t0
    · refine ⟨?_, ?_, ?_⟩
      · simp [f_reconnect_and_reinit, hp, connsChecked]
      · intro c hex
        simp only [f_reconnect_and_reinit, hp, if_true, ite_true] at hex ⊢
        refine ⟨(Out.exited.inj hex).symm, [], by simp, rfl⟩
      · intro dev st' hok
        simp [f_reconnect_and_reinit, hp] at hok
    · cases hc : env.conn st.conns with
      | none =>
        refine ⟨?_, ?_, ?_⟩
        · simp only [f_reconnect_and_reinit, hp, hc, f_connect_device,
            if_false, ite_false, List.cons_append, List.nil_append]
          simp only [connsChecked]
          exact (ih _).1
        · intro c hex
          simp only [f_reconnect_and_reinit, hp, hc, f_connect_device,
            if_false, ite_false, List.cons_append, List.nil_append] at hex ⊢
          obtain ⟨hc0, pre, he1, he2⟩ := (ih _).2.1 c hex
          refine ⟨hc0, Ev.chk false :: Ev.conn none :: Ev.sleep 10
            :: Ev.sleep 5 :: pre, ?_, ?_⟩
          · simp only [List.cons_append]
            rw [he1]
          · simp only [hasChkTrue, List.any_cons] at he2 ⊢
            simp [he2]
        · intro dev st' hok
          simp only [f_reconnect_and_reinit, hp, hc, f_connect_device,
            if_false, ite_false, List.cons_append, List.nil_append] at hok ⊢
          obtain ⟨ho1, pre, rest, ho2⟩ := (ih _).2.2 dev st' hok
          refine ⟨?_, Ev.chk false :: Ev.conn none :: Ev.sleep 10
            :: Ev.sleep 5 :: pre, rest, ?_⟩
          · simp only [hasChkTrue, List.any_cons] at ho1 ⊢
            simp [ho1]
          · simp only [List.cons_append]
            rw [ho2]
      | some dev0 =>
        cases hr : env.ready st.readys with
        | false =>
          refine ⟨?_, ?_, ?_⟩
          · have h1 := (ih (St.mk st.polls (st.clocks + 1) (st.conns + 1)
              (st.readys + 1) st.sends st.flag)).1
            simp [f_reconnect_and_reinit, hp, hc, hr, f_connect_device,
              f_is_device_ready, connsChecked, h1]
          · intro c hex
            simp [f_reconnect_and_reinit, hp, hc, hr, f_connect_device,
              f_is_device_ready] at hex
            obtain ⟨hc0, pre, he1, he2⟩ := (ih _).2.1 c hex
            refine ⟨hc0, Ev.chk false :: Ev.conn (some dev0) :: Ev.sleep 10
              :: Ev.readyChk dev0 false :: Ev.sleep 5 :: pre, ?_, ?_⟩
            · simp [f_reconnect_and_reinit, hp, hc, hr, f_connect_device,
                f_is_device_ready, he1]
            · simp only [hasChkTrue, List.any_cons] at he2 ⊢
              simp [he2]
          · intro dev st' hok
            simp [f_reconnect_and_reinit, hp, hc, hr, f_connect_device,
              f_is_device_ready] at hok
            obtain ⟨ho1, pre, rest, ho2⟩ := (ih _).2.2 dev st' hok
            refine ⟨?_, Ev.chk false :: Ev.conn (some dev0) :: Ev.sleep 10
              :: Ev.readyChk dev0 false :: Ev.sleep 5 :: pre, rest, ?_⟩
            · simp only [hasChkTrue, List.any_cons] at ho1 ⊢
              simp [f_reconnect_and_reinit, hp, hc, hr, f_connect_device,
                f_is_device_ready, hasChkTrue, ho1]
            · simp [f_reconnect_and_reinit, hp, hc, hr, f_connect_device,
                f_is_device_ready, ho2]
        | true =>
          cases hkok : (f_send_home_key env (St.mk st.polls (st.clocks + 1)
              (st.conns + 1) (st.readys + 1) st.sends st.flag) dev0).2.2 with
          | true =>
            have hsh := f_send_home_key_ok_shape env _ dev0 hkok
            refine ⟨?_, ?_, ?_⟩
            · simp [f_reconnect_and_reinit, hp, hc, hr, f_connect_device,
                f_is_device_ready, hkok, hsh, connsChecked]
            · intro c hex
              simp [f_reconnect_and_reinit, hp, hc, hr, f_connect_device,
                f_is_device_ready, hkok] at hex
            · intro dev st' hok
              simp only [f_reconnect_and_reinit, hp, hc, hr,
                f_connect_device, f_is_device_ready, hkok, Out.ok.injEq,
                Prod.mk.injEq, if_false, ite_false, if_true, ite_true,
                List.cons_append, List.nil_append] at hok
              obtain ⟨hdev, -⟩ := hok
              subst hdev
              refine ⟨?_, [Ev.chk false, Ev.conn (some dev0), Ev.sleep 10],
                [Ev.sleep 10], ?_⟩
              · simp [f_reconnect_and_reinit, hp, hc, hr, f_connect_device,
                  f_is_device_ready, hkok, hsh, hasChkTrue]
              · simp [f_reconnect_and_reinit, hp, hc, hr, f_connect_device,
                  f_is_device_ready, hkok, hsh]
          | false =>
            have hneu := f_send_home_key_neutral env (St.mk st.polls
              (st.clocks + 1) (st.conns + 1) (st.readys + 1) st.sends
              st.flag) dev0
            refine ⟨?_, ?_, ?_⟩
            · have h1 := (ih ((f_send_home_key env (St.mk st.polls
                (st.clocks + 1) (st.conns + 1) (st.readys + 1) st.sends
                st.flag) dev0).2.1)).1
              simp [f_reconnect_and_reinit, hp, hc, hr, f_connect_device,
                f_is_device_ready, hkok, connsChecked,
                connsChecked_append_of_neutral _ hneu, h1]
            · intro c hex
              simp [f_reconnect_and_reinit, hp, hc, hr, f_connect_device,
                f_is_device_ready, hkok] at hex
              obtain ⟨hc0, pre, he1, he2⟩ := (ih _).2.1 c hex
              refine ⟨hc0, Ev.chk false :: Ev.conn (some dev0) :: Ev.sleep 10
                :: Ev.readyChk dev0 true :: Ev.sleep 30
                :: ((f_send_home_key env (St.mk st.polls (st.clocks + 1)
                  (st.conns + 1) (st.readys + 1) st.sends st.flag)
                  dev0).1 ++ pre), ?_, ?_⟩
              · simp [f_reconnect_and_reinit, hp, hc, hr, f_connect_device,
                  f_is_device_ready, hkok, he1]
              · simp only [hasChkTrue, List.any_cons, List.any_append] at he2 ⊢
                have hn := hasChkTrue_of_neutral _ hneu
                simp only [hasChkTrue] at hn
                simp [he2, hn]
            · intro dev st' hok
              simp [f_reconnect_and_reinit, hp, hc, hr, f_connect_device,
                f_is_device_ready, hkok] at hok
              obtain ⟨ho1, pre, rest, ho2⟩ := (ih _).2.2 dev st' hok
              refine ⟨?_, Ev.chk false :: Ev.conn (some dev0) :: Ev.sleep 10
                :: Ev.readyChk dev0 true :: Ev.sleep 30
                :: ((f_send_home_key env (St.mk st.polls (st.clocks + 1)
                  (st.conns + 1) (st.readys + 1) st.sends st.flag)
                  dev0).1 ++ pre), rest, ?_⟩
              · have hn := hasChkTrue_of_neutral _ hneu
                simp only [hasChkTrue, List.any_cons, List.any_append]
                  at ho1 hn ⊢
                simp [f_reconnect_and_reinit, hp, hc, hr, f_connect_device,
                  f_is_device_ready, hkok, hasChkTrue, List.any_append,
                  ho1, hn]
              · simp [f_reconnect_and_reinit, hp, hc, hr, f_connect_device,
                  f_is_device_ready, hkok, ho2]

/-- `connsChecked` drops a HOME-key trace. -/
theorem connsChecked_home_drop (env : Env) (dev : String) :
    ∀ st l2, connsChecked ((f_send_home_key env st dev).1 ++ l2)
      = connsChecked l2 :=
  fun st l2 =>
    connsChecked_append_of_neutral _ (f_send_home_key_neutral env st dev) l2

/-- `connsChecked` drops a GUIDE-key trace. -/
theorem connsChecked_guide_drop (env : Env) (dev : String) :
    ∀ st l2, connsChecked ((f_send_guide_key env st dev).1 ++ l2)
      = connsChecked l2 :=
  fun st l2 =>
    connsChecked_append_of_neutral _ (f_send_guide_key_neutral env st dev) l2

/-- `connsChecked` drops a BACK-key trace. -/
theorem connsChecked_back_drop (env : Env) (dev : String) :
    ∀ st l2, connsChecked ((f_send_back_key env st dev).1 ++ l2)
      = connsChecked l2 :=
  fun st l2 =>
    connsChecked_append_of_neutral _ (f_send_back_key_neutral env st dev) l2

/-- A BACK-key trace alone passes `connsChecked`. -/
theorem connsChecked_back_alone (env : Env) (dev : String) :
    ∀ st, connsChecked (f_send_back_key env st dev).1 = true :=
  fun st => connsChecked_of_neutral _ (f_send_back_key_neutral env st dev)

/-- A HOME-key trace contains no deadline-exceeded check. -/
theorem hasChkTrue_home (env : Env) (dev : String) :
    ∀ st, hasChkTrue (f_send_home_key env st dev).1 = false :=
  fun st => hasChkTrue_of_neutral _ (f_send_home_key_neutral env st dev)

/-- A GUIDE-key trace contains no deadline-exceeded check. -/
theorem hasChkTrue_guide (env : Env) (dev : String) :
    ∀ st, hasChkTrue (f_send_guide_key env st dev).1 = false :=
  fun st => hasChkTrue_of_neutral _ (f_send_guide_key_neutral env st dev)

/-- A BACK-key trace contains no deadline-exceeded check. -/
theorem hasChkTrue_back (env : Env) (dev : String) :
    ∀ st, hasChkTrue (f_send_back_key env st dev).1 = false :=
  fun st => hasChkTrue_of_neutral _ (f_send_back_key_neutral env st dev)

/-- `connsChecked` drops a bare `f_send_key` trace. -/
theorem connsChecked_sendkey_drop (env : Env) (dev code name : String) :
    ∀ st l2, connsChecked ((f_send_key env st dev code name).1 ++ l2)
      = connsChecked l2 :=
  fun st l2 =>
    connsChecked_append_of_neutral _ (f_send_key_neutral env st dev code name) l2

/-- A bare `f_send_key` trace alone passes `connsChecked`. -/
theorem connsChecked_sendkey_alone (env : Env) (dev code name : String) :
    ∀ st, connsChecked (f_send_key env st dev code name).1 = true :=
  fun st => connsChecked_of_neutral _ (f_send_key_neutral env st dev code name)

/-- A bare `f_send_key` trace contains no deadline-exceeded check. -/
theorem hasChkTrue_sendkey (env : Env) (dev code name : String) :
    ∀ st, hasChkTrue (f_send_key env st dev code name).1 = false :=
  fun st => hasChkTrue_of_neutral _ (f_send_key_neutral env st dev code name)

/-- Structural lemma for `f_reconnect_and_reinit_project1`, the GUIDE→BACK
profile variant: same three properties as `reconnect_spec`. -/
theorem reconnect_project1_spec (env : Env) (t0 d : Int) : ∀ fuel st,
    connsChecked (f_reconnect_and_reinit_project1 env t0 d fuel st).1 = true
    ∧ (∀ c, (f_reconnect_and_reinit_project1 env t0 d fuel st).2
          = Out.exited c →
        c = 0 ∧ ∃ pre, (f_reconnect_and_reinit_project1 env t0 d fuel st).1
            = pre ++ [Ev.chk true, Ev.sysExit 0]
          ∧ hasChkTrue pre = false)
    ∧ (∀ dev st', (f_reconnect_and_reinit_project1 env t0 d fuel st).2
          = Out.ok (dev, st') →
        hasChkTrue (f_reconnect_and_reinit_project1 env t0 d fuel st).1 = false
        ∧ ∃ pre rest, (f_reconnect_and_reinit_project1 env t0 d fuel st).1
            = pre ++ Ev.readyChk dev true :: Ev.sleep 30
                :: Ev.key dev "3" true :: rest) := by
  intro fuel
  induction fuel with
  | zero =>
    intro st
    refine ⟨rfl, ?_, ?_⟩
    · intro c hex
      simp [f_reconnect_and_reinit_project1] at hex
    · intro dev st' hok
      simp [f_reconnect_and_reinit_project1] at hok
  | succ n ih =>
    intro st
    by_cases hp : d ≤ env.clock st.clocks - t0
    · refine ⟨?_, ?_, ?_⟩
      · simp [f_reconnect_and_reinit_project1, hp, connsChecked]
      · intro c hex
        simp only [f_reconnect_and_reinit_project1, hp, if_true,
          ite_true] at hex ⊢
        refine ⟨(Out.exited.inj hex).symm, [], by simp, rfl⟩
      · intro dev st' hok
        simp [f_reconnect_and_reinit_project1, hp] at hok
    · cases hc : env.conn st.conns with
      | none =>
        refine ⟨?_, ?_, ?_⟩
        · have h1 := (ih (St.mk st.polls (st.clocks + 1) (st.conns + 1)
            st.readys st.sends st.flag)).1
          simp [f_reconnect_and_reinit_project1, hp, hc, f_connect_device,
            connsChecked, h1]
        · intro c hex
          simp [f_reconnect_and_reinit_project1, hp, hc,
            f_connect_device] at hex
          obtain ⟨hc0, pre, he1, he2⟩ := (ih _).2.1 c hex
          refine ⟨hc0, Ev.chk false :: Ev.conn none :: Ev.sleep 10
            :: Ev.sleep 5 :: pre, ?_, ?_⟩
          · simp [f_reconnect_and_reinit_project1, hp, hc, f_connect_device,
              he1]
          · simp only [hasChkTrue, List.any_cons] at he2 ⊢
            simp [he2]
        · intro dev st' hok
          simp [f_reconnect_and_reinit_project1, hp, hc,
            f_connect_device] at hok
          obtain ⟨ho1, pre, rest, ho2⟩ := (ih _).2.2 dev st' hok
          refine ⟨?_, Ev.chk false :: Ev.conn none :: Ev.sleep 10
            :: Ev.sleep 5 :: pre, rest, ?_⟩
          · simp only [hasChkTrue, List.any_cons] at ho1 ⊢
            simp [f_reconnect_and_reinit_project1, hp, hc, f_connect_device,
              hasChkTrue, ho1]
          · simp [f_reconnect_and_reinit_project1, hp, hc, f_connect_device,
              ho2]
      | some dev0 =>
        cases hr : env.ready st.readys with
        | false =>
          refine ⟨?_, ?_, ?_⟩
          · have h1 := (ih (St.mk st.polls (st.clocks + 1) (st.conns + 1)
              (st.readys + 1) st.sends st.flag)).1
            simp [f_reconnect_and_reinit_project1, hp, hc, hr,
              f_connect_device, f_is_device_ready, connsChecked, h1]
          · intro c hex
            simp [f_reconnect_and_reinit_project1, hp, hc, hr,
              f_connect_device, f_is_device_ready] at hex
            obtain ⟨hc0, pre, he1, he2⟩ := (ih _).2.1 c hex
            refine ⟨hc0, Ev.chk false :: Ev.conn (some dev0) :: Ev.sleep 10
              :: Ev.readyChk dev0 false :: Ev.sleep 5 :: pre, ?_, ?_⟩
            · simp [f_reconnect_and_reinit_project1, hp, hc, hr,
                f_connect_device, f_is_device_ready, he1]
            · simp only [hasChkTrue, List.any_cons] at he2 ⊢
              simp [he2]
          · intro dev st' hok
            simp [f_reconnect_and_reinit_project1, hp, hc, hr,
              f_connect_device, f_is_device_ready] at hok
            obtain ⟨ho1, pre, rest, ho2⟩ := (ih _).2.2 dev st' hok
            refine ⟨?_, Ev.chk false :: Ev.conn (some dev0) :: Ev.sleep 10
              :: Ev.readyChk dev0 false :: Ev.sleep 5 :: pre, rest, ?_⟩
            · simp only [hasChkTrue, List.any_cons] at ho1 ⊢
              simp [f_reconnect_and_reinit_project1, hp, hc, hr,
                f_connect_device, f_is_device_ready, hasChkTrue, ho1]
            · simp [f_reconnect_and_reinit_project1, hp, hc, hr,
                f_connect_device, f_is_device_ready, ho2]
        | true =>
          cases hkok : (f_send_home_key env (St.mk st.polls (st.clocks + 1)
              (st.conns + 1) (st.readys + 1) st.sends st.flag) dev0).2.2 with
          | true =>
            have hsh := f_send_home_key_ok_shape env _ dev0 hkok
            refine ⟨?_, ?_, ?_⟩
            · simp [f_reconnect_and_reinit_project1, hp, hc, hr,
                f_connect_device, f_is_device_ready, hkok, hsh, connsChecked,
                connsChecked_guide_drop, connsChecked_back_alone,
                connsChecked_back_drop, connsChecked_sendkey_drop,
                connsChecked_sendkey_alone]
            · intro c hex
              simp [f_reconnect_and_reinit_project1, hp, hc, hr,
                f_connect_device, f_is_device_ready, hkok] at hex
            · intro dev st' hok
              simp only [f_reconnect_and_reinit_project1, hp, hc, hr,
                f_connect_device, f_is_device_ready, hkok, Out.ok.injEq,
                Prod.mk.injEq, if_false, ite_false, if_true, ite_true,
                List.cons_append, List.nil_append] at hok
              obtain ⟨hdev, -⟩ := hok
              subst hdev
              refine ⟨?_, [Ev.chk false, Ev.conn (some dev0), Ev.sleep 10],
                Ev.sleep 10
                  :: ((f_send_guide_key env (f_send_home_key env
                    (St.mk st.polls (st.clocks + 1) (st.conns + 1)
                      (st.readys + 1) st.sends st.flag) dev0).2.1 dev0).1
                  ++ (f_send_back_key env (f_send_guide_key env
                    (f_send_home_key env (St.mk st.polls (st.clocks + 1)
                      (st.conns + 1) (st.readys + 1) st.sends st.flag)
                      dev0).2.1 dev0).2.1 dev0).1), ?_⟩
              · have hg := hasChkTrue_guide env dev0
                have hb := hasChkTrue_back env dev0
                have hsk := hasChkTrue_sendkey env dev0
                simp only [hasChkTrue] at hg hb hsk
                simp [f_reconnect_and_reinit_project1, hp, hc, hr,
                  f_connect_device, f_is_device_ready, hkok, hsh, hasChkTrue,
                  List.any_append, hg, hb, hsk]
              · simp [f_reconnect_and_reinit_project1, hp, hc, hr,
                  f_connect_device, f_is_device_ready, hkok, hsh]
          | false =>
            have hneu := f_send_home_key_neutral env (St.mk st.polls
              (st.clocks + 1) (st.conns + 1) (st.readys + 1) st.sends
              st.flag) dev0
            refine ⟨?_, ?_, ?_⟩
            · have h1 := (ih ((f_send_home_key env (St.mk st.polls
                (st.clocks + 1) (st.conns + 1) (st.readys + 1) st.sends
                st.flag) dev0).2.1)).1
              simp [f_reconnect_and_reinit_project1, hp, hc, hr,
                f_connect_device, f_is_device_ready, hkok, connsChecked,
                connsChecked_append_of_neutral _ hneu, h1]
            · intro c hex
              simp [f_reconnect_and_reinit_project1, hp, hc, hr,
                f_connect_device, f_is_device_ready, hkok] at hex
              obtain ⟨hc0, pre, he1, he2⟩ := (ih _).2.1 c hex
              refine ⟨hc0, Ev.chk false :: Ev.conn (some dev0) :: Ev.sleep 10
                :: Ev.readyChk dev0 true :: Ev.sleep 30
                :: ((f_send_home_key env (St.mk st.polls (st.clocks + 1)
                  (st.conns + 1) (st.readys + 1) st.sends st.flag)
                  dev0).1 ++ Ev.sleep 5 :: pre), ?_, ?_⟩
              · simp [f_reconnect_and_reinit_project1, hp, hc, hr,
                  f_connect_device, f_is_device_ready, hkok, he1]
              · simp only [hasChkTrue, List.any_cons, List.any_append] at he2 ⊢
                have hn := hasChkTrue_of_neutral _ hneu
                simp only [hasChkTrue] at hn
                simp [he2, hn]
            · intro dev st' hok
              simp [f_reconnect_and_reinit_project1, hp, hc, hr,
                f_connect_device, f_is_device_ready, hkok] at hok
              obtain ⟨ho1, pre, rest, ho2⟩ := (ih _).2.2 dev st' hok
              refine ⟨?_, Ev.chk false :: Ev.conn (some dev0) :: Ev.sleep 10
                :: Ev.readyChk dev0 true :: Ev.sleep 30
                :: ((f_send_home_key env (St.mk st.polls (st.clocks + 1)
                  (st.conns + 1) (st.readys + 1) st.sends st.flag)
                  dev0).1 ++ Ev.sleep 5 :: pre), rest, ?_⟩
              · have hn := hasChkTrue_of_neutral _ hneu
                simp only [hasChkTrue, List.any_cons, List.any_append]
                  at ho1 hn ⊢
                simp [f_reconnect_and_reinit_project1, hp, hc, hr,
                  f_connect_device, f_is_device_ready, hkok, hasChkTrue,
                  List.any_append, ho1, hn]
              · simp [f_reconnect_and_reinit_project1, hp, hc, hr,
                  f_connect_device, f_is_device_ready, hkok, ho2]

/-- C3: in both reconnection loops the run deadline is checked before every
connection attempt (every `conn` event is immediately preceded by a deadline
check that passed); if a check finds `now - start >= duration` the loop
terminates the process immediately (the trace ends with that check and the
`sys.exit`, so no further connection attempt occurs past the deadline); and a
recovered session is returned only from a run in which no deadline check ever
found the deadline exceeded. -/
theorem C3_reconnect_deadline (env : Env) (t0 d : Int) (fuel : Nat) (st : St) :
    (connsChecked (f_reconnect_and_reinit env t0 d fuel st).1 = true
      ∧ (∀ c, (f_reconnect_and_reinit env t0 d fuel st).2 = Out.exited c →
          ∃ pre, (f_reconnect_and_reinit env t0 d fuel st).1
              = pre ++ [Ev.chk true, Ev.sysExit 0] ∧ hasChkTrue pre = false)
      ∧ (∀ dev st', (f_reconnect_and_reinit env t0 d fuel st).2
            = Out.ok (dev, st') →
          hasChkTrue (f_reconnect_and_reinit env t0 d fuel st).1 = false))
    ∧ (connsChecked (f_reconnect_and_reinit_project1 env t0 d fuel st).1 = true
      ∧ (∀ c, (f_reconnect_and_reinit_project1 env t0 d fuel st).2
            = Out.exited c →
          ∃ pre, (f_reconnect_and_reinit_project1 env t0 d fuel st).1
              = pre ++ [Ev.chk true, Ev.sysExit 0] ∧ hasChkTrue pre = false)
      ∧ (∀ dev st', (f_reconnect_and_reinit_project1 env t0 d fuel st).2
            = Out.ok (dev, st') →
          hasChkTrue (f_reconnect_and_reinit_project1 env t0 d fuel st).1
            = false)) :=
  ⟨⟨(reconnect_spec env t0 d fuel st).1,
    fun c h => ((reconnect_spec env t0 d fuel st).2.1 c h).2,
    fun dev st' h => ((reconnect_spec env t0 d fuel st).2.2 dev st' h).1⟩,
   ⟨(reconnect_project1_spec env t0 d fuel st).1,
    fun c h => ((reconnect_project1_spec env t0 d fuel st).2.1 c h).2,
    fun dev st' h =>
      ((reconnect_project1_spec env t0 d fuel st).2.2 dev st' h).1⟩⟩

/-- C3 witness: with the deadline already elapsed (duration 0) the loop
terminates at once — its whole trace is the failed check plus `sys.exit`,
with no connection attempt before (or after) it. -/
theorem C3_witness :
    connsChecked (f_reconnect_and_reinit envFail 0 0 3 St.init).1 = true ∧
    ∃ pre, (f_reconnect_and_reinit envFail 0 0 3 St.init).1
        = pre ++ [Ev.chk true, Ev.sysExit 0] ∧ hasChkTrue pre = false :=
  ⟨(C3_reconnect_deadline envFail 0 0 3 St.init).1.1,
   (C3_reconnect_deadline envFail 0 0 3 St.init).1.2.1 0 (by decide)⟩

/-- C4: neither reconnection routine returns a recovered `(device, True)`
session without the trace showing a successful readiness check on that very
device, followed by the 30 s settle and only then the reinitializer replay
(whose first step is the HOME key). -/
theorem C4_ready_before_recovery (env : Env) (t0 d : Int) (fuel : Nat)
    (st : St) :
    (∀ dev st', (f_reconnect_and_reinit env t0 d fuel st).2
          = Out.ok (dev, st') →
      ∃ pre rest, (f_reconnect_and_reinit env t0 d fuel st).1
          = pre ++ Ev.readyChk dev true :: Ev.sleep 30
              :: Ev.key dev "3" true :: rest)
    ∧ (∀ dev st', (f_reconnect_and_reinit_project1 env t0 d fuel st).2
          = Out.ok (dev, st') →
      ∃ pre rest, (f_reconnect_and_reinit_project1 env t0 d fuel st).1
          = pre ++ Ev.readyChk dev true :: Ev.sleep 30
              :: Ev.key dev "3" true :: rest) :=
  ⟨fun dev st' h => ((reconnect_spec env t0 d fuel st).2.2 dev st' h).2,
   fun dev st' h =>
     ((reconnect_project1_spec env t0 d fuel st).2.2 dev st' h).2⟩

/-- C4 witness: in a healthy environment the loop recovers device
`10.0.0.7:5555` and its trace shows the successful readiness check on that
device before the settle and the HOME replay. -/
theorem C4_witness :
    ∃ pre rest, (f_reconnect_and_reinit envHealthy 0 100 3 St.init).1
        = pre ++ Ev.readyChk "10.0.0.7:5555" true :: Ev.sleep 30
            :: Ev.key "10.0.0.7:5555" "3" true :: rest :=
  (C4_ready_before_recovery envHealthy 0 100 3 St.init).1 "10.0.0.7:5555"
    ⟨0, 1, 1, 1, 1, false⟩ (by decide)

/-- C10: every deadline-exceeded process termination — in the standby wait
and in both reconnection retry loops — uses `sys.exit(0)`, i.e. exit status
0, indistinguishable by status code from a successful exit. -/
theorem C10_exit_code_zero (env : Env) (t0 d : Int) (fuel : Nat) (st : St) :
    (∀ c, (f_wait_standby_exit env t0 d fuel st).2 = Out.exited c → c = 0)
    ∧ (∀ c, (f_reconnect_and_reinit env t0 d fuel st).2 = Out.exited c →
        c = 0)
    ∧ (∀ c, (f_reconnect_and_reinit_project1 env t0 d fuel st).2
          = Out.exited c → c = 0) :=
  ⟨fun c h => (wait_exit_shape env t0 d fuel st c h).1,
   fun c h => ((reconnect_spec env t0 d fuel st).2.1 c h).1,
   fun c h => ((reconnect_project1_spec env t0 d fuel st).2.1 c h).1⟩

/-- C10 witness: concrete deadline-exceeded runs of all three loops exit with
status 0. -/
theorem C10_witness : (0 : Nat) = 0 ∧ (0 : Nat) = 0 ∧ (0 : Nat) = 0 :=
  ⟨(C10_exit_code_zero envStandbyForever 0 0 3 St.init).1 0 (by decide),
   (C10_exit_code_zero envFail 0 0 3 St.init).2.1 0 (by decide),
   (C10_exit_code_zero envFail 0 0 3 St.init).2.2 0 (by decide)⟩

/-- `idxFrom` produces as many indices as requested. -/
theorem idxFrom_len : ∀ s k, (idxFrom s k).length = k := by
  intro s k
  induction k generalizing s with
  | zero => rfl
  | succ k ihk => simp [idxFrom, ihk]

/-- The step indices attempted by one pass are the `k` consecutive indices
starting at `idx` for some `k` bounded by the number of remaining steps, and
`k` covers all of them whenever the pass completes without reconnection. -/
theorem passLoop_spec (env : Env) (t0 d : Int) (fuel : Nat) :
    ∀ steps idx dev st,
      ∃ k, (passLoop env t0 d fuel steps idx dev st).2.1 = idxFrom idx k
        ∧ k ≤ steps.length
        ∧ (∀ dev' st', (passLoop env t0 d fuel steps idx dev st).2.2
              = Out.ok ((dev', false), st') → k = steps.length) := by
  intro steps
  induction steps with
  | nil =>
    intro idx dev st
    exact ⟨0, rfl, by simp, fun dev' st' h => rfl⟩
  | cons f rest ihs =>
    intro idx dev st
    cases hout : (f_check_and_send env t0 d f dev st fuel).2 with
    | ok a =>
      obtain ⟨⟨dev', b⟩, st'⟩ := a
      cases b with
      | true =>
        refine ⟨1, ?_, ?_, ?_⟩
        · simp [passLoop, hout, idxFrom]
        · simp
        · intro dev'' st'' h
          simp [passLoop, hout] at h
      | false =>
        obtain ⟨k, h1, h2, h3⟩ := ihs (idx + 1) dev' st'
        refine ⟨k + 1, ?_, ?_, ?_⟩
        · simp [passLoop, hout, idxFrom, h1]
        · simpa using Nat.succ_le_succ h2
        · intro dev'' st'' h
          simp only [passLoop, hout] at h
          have := h3 dev'' st'' h
          simp [this]
    | exited cd =>
      refine ⟨1, ?_, ?_, ?_⟩
      · simp [passLoop, hout, idxFrom]
      · simp
      · intro dev'' st'' h
        simp [passLoop, hout] at h
    | fuelOut =>
      refine ⟨1, ?_, ?_, ?_⟩
      · simp [passLoop, hout, idxFrom]
      · simp
      · intro dev'' st'' h
        simp [passLoop, hout] at h

/-- The main zapping loop obeys the restart discipline: every recorded pass
runs the initial sequence exactly when it is due, attempts a contiguous
prefix of step indices starting at 0, attempts the whole list unless it
reconnected, and a reconnected pass makes the initial sequence due for the
next pass. -/
theorem zappingMain_restart (env : Env) (t0 d : Int) (steps : List StepFn) :
    ∀ fuel dev st loop needInit,
      restartOk steps.length needInit
        (zappingMain env t0 d steps fuel dev st loop needInit).2.1 = true := by
  intro fuel
  induction fuel with
  | zero => intro dev st loop needInit; rfl
  | succ n ih =>
    intro dev st loop needInit
    by_cases hp : d ≤ env.clock st.clocks - t0
    · simp [zappingMain, hp, restartOk]
    · cases hni : needInit with
      | true =>
        obtain ⟨k, h1, h2, h3⟩ := passLoop_spec env t0 d n steps 0 dev
          (zappingInitSeq env (St.mk st.polls (st.clocks + 1) st.conns
            st.readys st.sends st.flag) dev).2
        cases hout : (passLoop env t0 d n steps 0 dev
            (zappingInitSeq env (St.mk st.polls (st.clocks + 1) st.conns
              st.readys st.sends st.flag) dev).2).2.2 with
        | ok a =>
          obtain ⟨⟨dev', b⟩, st'⟩ := a
          cases b with
          | true =>
            simp [zappingMain, hp, hout, restartOk, h1, Nat.ble_eq, h2,
              idxFrom_len, ih]
          | false =>
            have hk := h3 dev' st' hout
            simp [zappingMain, hp, hout, restartOk, h1, hk, idxFrom_len, ih]
        | exited cd =>
          simp [zappingMain, hp, hout, restartOk]
        | fuelOut =>
          simp [zappingMain, hp, hout, restartOk]
      | false =>
        obtain ⟨k, h1, h2, h3⟩ := passLoop_spec env t0 d n steps 0 dev
          (St.mk st.polls (st.clocks + 1) st.conns st.readys st.sends st.flag)
        cases hout : (passLoop env t0 d n steps 0 dev
            (St.mk st.polls (st.clocks + 1) st.conns st.readys st.sends
              st.flag)).2.2 with
        | ok a =>
          obtain ⟨⟨dev', b⟩, st'⟩ := a
          cases b with
          | true =>
            simp [zappingMain, hp, hout, restartOk, h1, Nat.ble_eq, h2,
              idxFrom_len, ih]
          | false =>
            have hk := h3 dev' st' hout
            simp [zappingMain, hp, hout, restartOk, h1, hk, idxFrom_len, ih]
        | exited cd =>
          simp [zappingMain, hp, hout, restartOk]
        | fuelOut =>
          simp [zappingMain, hp, hout, restartOk]

/-- The main zapping loop obeys the loop-counter discipline: a reconnected
pass leaves the counter at 0, a clean pass at the previous value plus 1. -/
theorem zappingMain_loopOk (env : Env) (t0 d : Int) (steps : List StepFn) :
    ∀ fuel dev st loop needInit,
      loopValuesOk loop
        ((zappingMain env t0 d steps fuel dev st loop needInit).2.1.map
          fun p => (p.reconnected, p.loopAfter)) = true := by
  intro fuel
  induction fuel with
  | zero => intro dev st loop needInit; rfl
  | succ n ih =>
    intro dev st loop needInit
    by_cases hp : d ≤ env.clock st.clocks - t0
    · simp [zappingMain, hp, loopValuesOk]
    · cases hni : needInit with
      | true =>
        cases hout : (passLoop env t0 d n steps 0 dev
            (zappingInitSeq env (St.mk st.polls (st.clocks + 1) st.conns
              st.readys st.sends st.flag) dev).2).2.2 with
        | ok a =>
          obtain ⟨⟨dev', b⟩, st'⟩ := a
          cases b <;> simp [zappingMain, hp, hout, loopValuesOk, ih]
        | exited cd => simp [zappingMain, hp, hout, loopValuesOk]
        | fuelOut => simp [zappingMain, hp, hout, loopValuesOk]
      | false =>
        cases hout : (passLoop env t0 d n steps 0 dev
            (St.mk st.polls (st.clocks + 1) st.conns st.readys st.sends
              st.flag)).2.2 with
        | ok a =>
          obtain ⟨⟨dev', b⟩, st'⟩ := a
          cases b <;> simp [zappingMain, hp, hout, loopValuesOk, ih]
        | exited cd => simp [zappingMain, hp, hout, loopValuesOk]
        | fuelOut => simp [zappingMain, hp, hout, loopValuesOk]

/-- The standby/wake-up main loop obeys the same loop-counter discipline:
a pass whose STANDBY or WAKEUP send failed reconnects and leaves the counter
at 0, a clean pass leaves it at the previous value plus 1. -/
theorem wakeupMain_loopOk (env : Env) (t0 d : Int) :
    ∀ fuel dev st loop needInit,
      loopValuesOk loop
        (wakeupMain env t0 d fuel dev st loop needInit).2.1 = true := by
  intro fuel
  induction fuel with
  | zero => intro dev st loop needInit; rfl
  | succ n ih =>
    intro dev st loop needInit
    by_cases hp : d ≤ env.clock st.clocks - t0
    · simp [wakeupMain, hp, loopValuesOk]
    · cases hsk : (f_send_standby_key env (St.mk st.polls (st.clocks + 1)
          st.conns st.readys st.sends st.flag) dev).2.2 with
      | true =>
        cases hwk : (f_send_wake_up_key env (f_send_standby_key env
            (St.mk st.polls (st.clocks + 1) st.conns st.readys st.sends
              st.flag) dev).2.1 dev).2.2 with
        | true => simp [wakeupMain, hp, hsk, hwk, loopValuesOk, ih]
        | false =>
          cases hrec : (f_reconnect_and_reinit env t0 d n
              (f_send_wake_up_key env (f_send_standby_key env
                (St.mk st.polls (st.clocks + 1) st.conns st.readys st.sends
                  st.flag) dev).2.1 dev).2.1).2 with
          | ok a =>
            obtain ⟨dev', st'⟩ := a
            simp [wakeupMain, hp, hsk, hwk, hrec, loopValuesOk, ih]
          | exited c => simp [wakeupMain, hp, hsk, hwk, hrec, loopValuesOk]
          | fuelOut => simp [wakeupMain, hp, hsk, hwk, hrec, loopValuesOk]
      | false =>
        cases hrec : (f_reconnect_and_reinit env t0 d n
            (f_send_standby_key env (St.mk st.polls (st.clocks + 1) st.conns
              st.readys st.sends st.flag) dev).2.1).2 with
        | ok a =>
          obtain ⟨dev', st'⟩ := a
          simp [wakeupMain, hp, hsk, hrec, loopValuesOk, ih]
        | exited c => simp [wakeupMain, hp, hsk, hrec, loopValuesOk]
        | fuelOut => simp [wakeupMain, hp, hsk, hrec, loopValuesOk]

/-- C1: for every test run and every repeating step list, every pass of the
zapping main loop attempts a contiguous block of step indices starting at 0;
a pass that ends in a successful reconnection abandons the remaining steps
(its attempted block is a prefix, not necessarily the whole list), and the
next recorded pass both re-runs the profile's initial sequence and again
starts at index 0 — execution never resumes at i+1.  The second conjunct
instantiates this on `f_test_zapping_standard`'s fixed step list. -/
theorem C1_restart_from_zero (env : Env) (t0 d : Int) (steps : List StepFn)
    (fuel : Nat) (dev : String) (st : St) :
    restartOk steps.length true
      (zappingMain env t0 d steps fuel dev st 0 true).2.1 = true
    ∧ restartOk zappingSteps.length true
      (f_test_zapping_standard_run env t0 d dev st fuel).2.1 = true :=
  ⟨zappingMain_restart env t0 d steps fuel dev st 0 true,
   zappingMain_restart env t0 d zappingSteps fuel dev st 0 true⟩

/-- C6: in both the zapping main loop (for any step list, and for the
concrete standard zapping test starting at counter 0) and the standby/wake-up
main loop, the `loop` counter after each pass is exactly 0 if the pass
reconnected and the previous value plus 1 if it completed without
reconnection — it takes no other values. -/
theorem C6_loop_counter (env : Env) (t0 d : Int) (steps : List StepFn)
    (fuel : Nat) (dev : String) (st : St) (loop : Nat) (needInit : Bool) :
    loopValuesOk loop
      ((zappingMain env t0 d steps fuel dev st loop needInit).2.1.map
        fun p => (p.reconnected, p.loopAfter)) = true
    ∧ loopValuesOk loop (wakeupMain env t0 d fuel dev st loop needInit).2.1
        = true
    ∧ loopValuesOk 0
      ((f_test_zapping_standard_run env t0 d dev st fuel).2.1.map
        fun p => (p.reconnected, p.loopAfter)) = true :=
  ⟨zappingMain_loopOk env t0 d steps fuel dev st loop needInit,
   wakeupMain_loopOk env t0 d fuel dev st loop needInit,
   zappingMain_loopOk env t0 d zappingSteps fuel dev st 0 true⟩
